import Mathlib

/-!
# Verification of the aggregation & caching layer

Shallow embedding of the analytics backend's core
(`backend/routers/vendas_aggregated.py`, `backend/routers/bar_aggregated.py`,
`backend/routers/bar.py`, `backend/cache.py`, `backend/bigquery_client.py`).

Modelling conventions:
* Python strings are Lean `String`s; `str.upper()` is `String.toUpper`
  (the labels involved are ASCII, where the two agree).
* Monetary amounts are rationals (`ℚ`): the claims under study are about
  exact decimal arithmetic (`/100` scaling, `R$ 1.234,56 ↦ 1234.56`), not
  about binary floating-point rounding.
* Dates are modelled at day granularity as `Nat` day numbers, so
  `FORMAT_DATE('%Y-%m-%d', d)` is the identity at this granularity;
  wall-clock time for the cache is a `Nat` measured in minutes.
* `x or d` on a possibly-missing Python value is `pyOr : Option α → α → α`,
  which also replaces a present-but-zero value by the default, exactly as
  Python truthiness does.
-/

/-- `listIsPrefix pat s` : `pat` occurs at the start of `s`. -/
def listIsPrefix : List Char → List Char → Bool
  | [], _ => true
  | _ :: _, [] => false
  | a :: as, b :: bs => a == b && listIsPrefix as bs

/-- `listIsSub pat s` : `pat` occurs contiguously somewhere in `s`
(Python `pat in s` on strings). -/
def listIsSub (pat : List Char) : List Char → Bool
  | [] => pat.isEmpty
  | b :: bs => listIsPrefix pat (b :: bs) || listIsSub pat bs

/-- Python `c.upper()` for one character (ASCII, which is all the source's
keyword tables use). -/
def charUpper (c : Char) : Char :=
  if 97 ≤ c.toNat && c.toNat ≤ 122 then Char.ofNat (c.toNat - 32) else c

/-- Python `s.upper()` restricted to ASCII. -/
def upperChars (s : List Char) : List Char := s.map charUpper

/-- Python `sub in s` on strings: substring containment. -/
def strContains (s sub : String) : Bool :=
  listIsSub sub.data s.data

/-- Substring containment with the haystack already in character-list form. -/
def lContains (s : List Char) (sub : String) : Bool :=
  listIsSub sub.data s

/-- Python `any(word in s for word in ws)`. -/
def containsAny (s : List Char) (ws : List String) : Bool :=
  ws.any (fun w => lContains s w)

/-- Python `s.strip()` restricted to the character-list view of a string. -/
def trimChars (s : List Char) : List Char :=
  ((s.dropWhile (fun c => c.isWhitespace)).reverse.dropWhile
    (fun c => c.isWhitespace)).reverse

/-- Python `x or d` for an optional numeric `x`: the default is used both
when the value is missing and when it is (falsy) zero. -/
def pyOr {α : Type} [Zero α] [DecidableEq α] (x : Option α) (d : α) : α :=
  match x with
  | none => d
  | some v => if v = 0 then d else v

/-- Python `x or d` for an optional string: the default is used both when
the value is missing and when it is the (falsy) empty string. -/
def pyOrStr (x : Option String) (d : String) : String :=
  match x with
  | none => d
  | some v => if v = "" then d else v

/-- Python `sep.join(parts)`. -/
def joinSep (sep : String) : List String → String
  | [] => ""
  | [a] => a
  | a :: b :: rest => a ++ sep ++ joinSep sep (b :: rest)

/-!
## Ticket-type normalizer
`backend/routers/vendas_aggregated.py`, `normalize_ticket_type` (lines 16–78).
-/

/-- The keyword list of the guard shared by the `MEIA` and `INTEIRA` rules. -/
def higherPriorityKeywords : List String :=
  ["FRONT", "OPEN", "ARENA", "PREMIUM", "PISTA", "CAMAROTE", "VIP", "GRAMADO"]

/-- The ordered guard/category pairs of `normalize_ticket_type`'s if-chain,
in source order (Front Stage, Backstage, Open Bar, Open, Arena, Premium,
Pista, Camarote, VIP, Gramado, Cortesia, Meia Entrada, Inteira). -/
def ticketRules : List ((List Char → Bool) × String) :=
  [ (fun u => containsAny u ["FRONT", "FRONTSTAGE", "FRONT STAGE", "FRONT-STAGE"],
     "Front Stage"),
    (fun u => lContains u "BACKSTAGE" || lContains u "BACK STAGE" ||
      lContains u "BACK-STAGE", "Backstage"),
    (fun u => lContains u "OPEN BAR" || lContains u "OPENBAR", "Open Bar"),
    (fun u => listIsPrefix "OPEN".data u || lContains u " OPEN" ||
      lContains u "OPEN:", "Open"),
    (fun u => lContains u "ARENA", "Arena"),
    (fun u => lContains u "PREMIUM", "Premium"),
    (fun u => lContains u "PISTA", "Pista"),
    (fun u => lContains u "CAMAROTE", "Camarote"),
    (fun u => lContains u "VIP", "VIP"),
    (fun u => lContains u "GRAMADO", "Gramado"),
    (fun u => lContains u "CORTESIA" || lContains u "COURTESY", "Cortesia"),
    (fun u => lContains u "MEIA" && !(containsAny u higherPriorityKeywords),
     "Meia Entrada"),
    (fun u => lContains u "INTEIRA" && !(containsAny u higherPriorityKeywords),
     "Inteira") ]

/-- First-match evaluation of an ordered rule chain, defaulting to
`"Outros"` (the final `return "Outros"`). -/
def firstMatch (u : List Char) : List ((List Char → Bool) × String) → String
  | [] => "Outros"
  | (p, c) :: rest => if p u then c else firstMatch u rest

/-- `normalize_ticket_type` from `vendas_aggregated.py`.  `none` models a
Python `None` argument; `if not tipo` is true exactly for `None` and `""`;
the if-chain is the ordered rule table above. -/
def normalize_ticket_type (tipo : Option String) : String :=
  match tipo with
  | none => "Outros"
  | some t =>
    if t = "" then "Outros"
    else firstMatch (upperChars t.data) ticketRules

/-- The fixed `TicketCategory` taxonomy of the data model. -/
def ticketCategories : List String :=
  ["Front Stage", "Backstage", "Open Bar", "Open", "Arena", "Premium", "Pista",
   "Camarote", "VIP", "Gramado", "Cortesia", "Meia Entrada", "Inteira", "Outros"]

/-!
## Formatted-numeric-string parser
`backend/bigquery_client.py`, `convert_to_number` inside `get_planejamento`
(lines 210–230).
-/

/-- Digit list to natural number, most significant first. -/
def digitsToNat (ds : List Char) : Nat :=
  ds.foldl (fun acc c => acc * 10 + (c.toNat - '0'.toNat)) 0

/-- Model of Python `float()` applied to a cleaned decimal string: optional
surrounding whitespace, optional sign, then digits with at most one decimal
point (at least one digit overall).  Returns the exact rational value;
strings outside this decimal fragment (the only shapes the projector feeds
it) are rejected. -/
def parseFloatQ (s : List Char) : Option ℚ :=
  let t := trimChars s
  let core : List Char → Option ℚ := fun u =>
    let intPart := u.takeWhile (fun c => c.isDigit)
    let rest := u.dropWhile (fun c => c.isDigit)
    match rest with
    | [] => if intPart.isEmpty then none else some (digitsToNat intPart)
    | '.' :: frac =>
        if frac.all (fun c => c.isDigit) && !(intPart.isEmpty && frac.isEmpty) then
          some ((digitsToNat intPart : ℚ) +
            (digitsToNat frac : ℚ) / ((10 : ℚ) ^ frac.length))
        else none
    | _ => none
  match t with
  | '-' :: u => (core u).map (fun q => -q)
  | '+' :: u => core u
  | u => core u

/-- Python `s.replace('R$', '')`: left-to-right removal of non-overlapping
occurrences of the two-character pattern. -/
def removeRS : List Char → List Char
  | [] => []
  | 'R' :: '$' :: rest => removeRS rest
  | c :: rest => c :: removeRS rest

/-- `convert_to_number` from `bigquery_client.get_planejamento`.  The
single-character `str.replace` calls are character filters / maps. -/
def convert_to_number (value : String) : ℚ :=
  if value = "" then 0
  else
    let v := trimChars value.toList
    let v := removeRS v
    let v := v.filter (fun c => c ≠ '$')
    let v := v.filter (fun c => c ≠ '.')
    let v := v.map (fun c => if c = ',' then '.' else c)
    let v := trimChars v
    let v := v.filter (fun c => c ≠ '%')
    match parseFloatQ v with
    | some q => q
    | none => 0

/-!
## Expiring cache
`backend/cache.py`, `SimpleCache` (the process-wide instance is built with
`default_ttl_minutes=5`).  The Python dict is an association list whose key
uniqueness is maintained by `cacheSet`; time is in minutes.
-/

structure CacheEntry (V : Type) where
  value : V
  expires_at : Nat
  created_at : Nat
deriving DecidableEq, Repr

/-- The cache map.  `SimpleCache._cache : Dict[str, ...]`. -/
abbrev Cache (V : Type) := List (String × CacheEntry V)

/-- `SimpleCache.get`: unknown key gives `none`; an entry with
`datetime.now() > expires_at` is deleted and gives `none`; otherwise the
stored value is returned.  The updated map is returned alongside. -/
def cacheGet {V : Type} (c : Cache V) (key : String) (now : Nat) :
    Option V × Cache V :=
  match List.lookup key c with
  | none => (none, c)
  | some e =>
    if now > e.expires_at then
      (none, c.filter (fun p => !(p.1 == key)))
    else
      (some e.value, c)

/-- The process-wide default TTL (`SimpleCache(default_ttl_minutes=5)`). -/
def simpleCacheDefaultTtl : Nat := 5

/-- `SimpleCache.set`: stores `value` with `expires_at = now + ttl`;
`ttl_minutes` is run through Python truthiness (`if ttl_minutes`), so both a
missing and a zero TTL fall back to the default.  Overwrites any previous
entry under the same key. -/
def cacheSet {V : Type} (c : Cache V) (key : String) (v : V)
    (ttlMinutes : Option Nat) (now : Nat) : Cache V :=
  let ttl := pyOr ttlMinutes simpleCacheDefaultTtl
  (key, ⟨v, now + ttl, now⟩) :: c.filter (fun p => !(p.1 == key))

/-- `SimpleCache.clear`. -/
def cacheClear {V : Type} (_ : Cache V) : Cache V := []

/-!
## Dataset rows and filters

`bar_zig` rows carry integer-cent money; `vendas_ingresso` rows carry a
precomputed net value.  `Option` fields are SQL-nullable columns.
-/

structure BarRow where
  unitValue : ℤ
  count : ℕ
  discountValue : Option ℤ
  isRefunded : Bool
  productName : Option String
  productCategory : Option String
  eventName : Option String
  eventDate : Option Nat
  transactionDate : Option Nat
  evento_tipo : Option String
deriving DecidableEq, Repr

/-- The `bar-aggregated` FilterSet (`evento_tipo`, `event_name`,
`event_date`); a date filter is a day number (the request's `YYYY-MM-DD`
string at the file's date granularity).  A `some ""` string filter is a
provided-but-empty query parameter, which Python truthiness skips. -/
structure BarFilters where
  evento_tipo : Option String
  event_name : Option String
  event_date : Option Nat
deriving DecidableEq, Repr

def emptyBarFilters : BarFilters := ⟨none, none, none⟩

/-- Whether one string filter constrains anything (`if evento_tipo:`). -/
def strFilterActive : Option String → Option String
  | none => none
  | some v => if v = "" then none else some v

/-- Semantics of the WHERE clause built by
`bar_aggregated.build_where_clause`: the fixed `isRefunded = FALSE`
conjunct plus one equality per active filter (SQL `col = 'v'` is false on a
NULL column). -/
def barRowMatches (f : BarFilters) (r : BarRow) : Bool :=
  !r.isRefunded &&
  (match strFilterActive f.evento_tipo with
   | none => true
   | some v => r.evento_tipo == some v) &&
  (match strFilterActive f.event_name with
   | none => true
   | some v => r.eventName == some v) &&
  (match f.event_date with
   | none => true
   | some d => r.eventDate == some d)

/-- The WHERE string of `bar_aggregated.build_where_clause`, used (via a
deterministic in-process `hash`) as the cache-key discriminator. -/
def bar_build_where_clause (f : BarFilters) : String :=
  let conditions := ["isRefunded = FALSE"]
  let conditions := conditions ++
    (match strFilterActive f.evento_tipo with
     | none => []
     | some v => ["_evento_tipo = '" ++ v ++ "'"])
  let conditions := conditions ++
    (match strFilterActive f.event_name with
     | none => []
     | some v => ["eventName = '" ++ v ++ "'"])
  let conditions := conditions ++
    (match f.event_date with
     | none => []
     | some d => ["FORMAT_DATE = '" ++ toString d ++ "'"])
  joinSep " AND " conditions

/-!
## Bar metrics (`bar_aggregated.get_metrics`)

The SQL aggregate
`COUNT(*), SUM((unitValue * count - IFNULL(discountValue,0)) / 100), SUM(count)`
over the WHERE-filtered table.  A reachable table yields exactly one result
row (`SUM` is NULL over zero rows); an unreachable source degrades to `[]`
at the `bigquery_client.query` boundary.
-/

/-- One result row of the metrics aggregate. -/
structure BarAggRow where
  total_transactions : ℕ
  total_revenue : Option ℚ
  total_products_sold : Option ℕ
deriving DecidableEq, Repr

/-- `(unitValue * count - IFNULL(discountValue, 0)) / 100` for one row. -/
def barRowRevenue (r : BarRow) : ℚ :=
  ((r.unitValue * r.count - r.discountValue.getD 0 : ℤ) : ℚ) / 100

/-- The metrics aggregate over a reachable table. -/
def barMetricsAgg (f : BarFilters) (rows : List BarRow) : BarAggRow :=
  let kept := rows.filter (barRowMatches f)
  { total_transactions := kept.length
    total_revenue := if kept.isEmpty then none else some ((kept.map barRowRevenue).sum)
    total_products_sold := if kept.isEmpty then none else some ((kept.map (·.count)).sum) }

/-- `bigquery_client.query` on the metrics SQL: `none` (client not
initialized / table missing / error) degrades to the empty result list. -/
def runBarMetricsSql (src : Option (List BarRow)) (f : BarFilters) : List BarAggRow :=
  match src with
  | none => []
  | some rows => [barMetricsAgg f rows]

/-- The JSON object built by `bar_aggregated.get_metrics`. -/
structure BarMetricsResp where
  total_transactions : ℕ
  total_revenue : ℚ
  total_products_sold : ℕ
  avg_ticket : ℚ
deriving DecidableEq, Repr

/-- The explicit zero object returned when the query yields no rows. -/
def zeroBarMetricsResp : BarMetricsResp :=
  { total_transactions := 0, total_revenue := 0, total_products_sold := 0,
    avg_ticket := 0 }

/-- Response construction from the aggregate row: each field goes through
`int(... or 0)` / `float(... or 0)`, and
`avg_ticket = total_revenue / total_transactions if total_transactions > 0 else 0`. -/
def mkBarMetricsResp (a : BarAggRow) : BarMetricsResp :=
  let tt := pyOr (some a.total_transactions) 0
  let rev := pyOr a.total_revenue 0
  let ps := pyOr a.total_products_sold 0
  { total_transactions := tt, total_revenue := rev, total_products_sold := ps,
    avg_ticket := if tt > 0 then rev / (tt : ℚ) else 0 }

/-- Request-processing state of the `bar-aggregated/metrics` endpoint: the
shared cache, the data source (`none` = unreachable), and a counter of
data-source hits. -/
structure BarMetricsState where
  cache : Cache BarMetricsResp
  source : Option (List BarRow)
  queries : Nat

/-- One `GET /bar-aggregated/metrics` request at wall-clock `now`.
The cache key is `f"bar_metrics_{hash(where_clause)}"`; `hash` is a fixed
deterministic function of the WHERE string within a process, so the string
itself stands in for it.  The cached response dict is non-empty, hence
always truthy.  The zero-object early return does **not** store anything. -/
def barGetMetrics (f : BarFilters) (now : Nat) (s : BarMetricsState) :
    BarMetricsResp × BarMetricsState :=
  let key := "bar_metrics_" ++ bar_build_where_clause f
  match cacheGet s.cache key now with
  | (some r, c) => (r, { s with cache := c })
  | (none, c) =>
    let s' : BarMetricsState := { s with cache := c, queries := s.queries + 1 }
    match runBarMetricsSql s'.source f with
    | [] => (zeroBarMetricsResp, s')
    | row :: _ =>
      let resp := mkBarMetricsResp row
      (resp, { s' with cache := cacheSet s'.cache key resp (some 15) now })

/-!
## Bar sales-by-date (`bar_aggregated.get_sales_by_date`)

A grouped aggregate (`GROUP BY FORMAT_DATE(transactionDate) ORDER BY date`)
used here for its emptiness behaviour: rows with a NULL date fall out of
the date grouping only through `FORMAT_DATE`, which keeps them under a NULL
key in BigQuery; at day granularity the group key is the day number.
-/

/-- First-occurrence-order deduplication keyed by `key`, the Python
`seen`-set idiom (and the group-key list of a SQL `GROUP BY`). -/
def dedupKeys {α β : Type} [DecidableEq β] (key : α → β) :
    List α → List β → List α
  | [], _ => []
  | x :: xs, seen =>
    if key x ∈ seen then dedupKeys key xs seen
    else x :: dedupKeys key xs (key x :: seen)

instance barDateRel : DecidableRel
    (fun (a b : Option Nat × ℚ × ℕ) => a.1.getD 0 ≤ b.1.getD 0) :=
  fun _ _ => Nat.decLe _ _

/-- `GET /bar-aggregated/sales-by-date`: revenue and quantity grouped by
transaction date. -/
def barSalesByDate (src : Option (List BarRow)) (f : BarFilters) :
    List (Option Nat × ℚ × ℕ) :=
  match src with
  | none => []
  | some rows =>
    let kept := rows.filter (barRowMatches f)
    let keys := dedupKeys id (kept.map (·.transactionDate)) []
    let grouped := keys.map (fun d =>
      let grp := kept.filter (fun r => r.transactionDate = d)
      (d, (grp.map barRowRevenue).sum, (grp.map (·.count)).sum))
    List.insertionSort (fun a b => a.1.getD 0 ≤ b.1.getD 0) grouped

/-!
## CSV-backed bar stats (`bar.get_bar_stats`)

Rows come from `csv_loader.load_csv("bar_zig_rows.csv")`; every field may
be missing.  The revenue sum uses the values exactly as stored (no `/100`)
and no refund predicate is applied.
-/

structure CsvBarRow where
  unitValue : Option ℚ
  count : Option ℚ
  discountValue : Option ℚ
  productName : Option String
  eventName : Option String
  isRefunded : Bool
deriving DecidableEq, Repr

structure BarStatsResp where
  total_transactions : ℕ
  total_revenue : ℚ
  unique_products : ℕ
  unique_events : ℕ
deriving DecidableEq, Repr

/-- `GET /bar/stats` over the loaded CSV rows (`data` is `[]` both for an
empty file and for a missing/unreadable one):
`sum((row.get('unitValue') or 0) * (row.get('count') or 1) - (row.get('discountValue') or 0))`. -/
def get_bar_stats (data : List CsvBarRow) : BarStatsResp :=
  if data.isEmpty then
    { total_transactions := 0, total_revenue := 0, unique_products := 0,
      unique_events := 0 }
  else
    { total_transactions := data.length
      total_revenue :=
        (data.map (fun r => pyOr r.unitValue 0 * pyOr r.count 1 - pyOr r.discountValue 0)).sum
      unique_products := ((data.filterMap (·.productName)).dedup).length
      unique_events := ((data.filterMap (·.eventName)).dedup).length }

/-!
## Vendas metrics (`vendas_aggregated.get_metrics`)

`COUNT(*), SUM(CAST(quantidade AS FLOAT64)), SUM(CAST(valor_liquido AS FLOAT64))`
over the filtered `vendas_ingresso` table; `ticket_medio` divides the
revenue by `total_ingressos` (tickets), guarded by `> 0`.
-/

structure VendasRow where
  quantidade : ℕ
  valor_liquido : ℚ
  cidade_evento : Option String
  evento : Option String
  base_responsavel : Option String
  ticketeira : Option String
  data_evento : Option Nat
  data_venda : Option Nat
deriving DecidableEq, Repr

/-- The `vendas-aggregated` FilterSet. -/
structure VendasFilters where
  cidade : Option String
  evento : Option String
  base_responsavel : Option String
  ticketeira : Option String
  data_evento : Option Nat
deriving DecidableEq, Repr

def emptyVendasFilters : VendasFilters := ⟨none, none, none, none, none⟩

/-- Semantics of `vendas_aggregated.build_where_clause` (`WHERE 1=1` plus
one equality per active filter — no dataset-level default predicate). -/
def vendasRowMatches (f : VendasFilters) (r : VendasRow) : Bool :=
  (match strFilterActive f.cidade with
   | none => true
   | some v => r.cidade_evento == some v) &&
  (match strFilterActive f.evento with
   | none => true
   | some v => r.evento == some v) &&
  (match strFilterActive f.base_responsavel with
   | none => true
   | some v => r.base_responsavel == some v) &&
  (match strFilterActive f.ticketeira with
   | none => true
   | some v => r.ticketeira == some v) &&
  (match f.data_evento with
   | none => true
   | some d => r.data_evento == some d)

structure VendasAggRow where
  total_vendas : ℕ
  total_ingressos : Option ℕ
  total_receita : Option ℚ
deriving DecidableEq, Repr

def vendasMetricsAgg (f : VendasFilters) (rows : List VendasRow) : VendasAggRow :=
  let kept := rows.filter (vendasRowMatches f)
  { total_vendas := kept.length
    total_ingressos := if kept.isEmpty then none else some ((kept.map (·.quantidade)).sum)
    total_receita := if kept.isEmpty then none else some ((kept.map (·.valor_liquido)).sum) }

def runVendasMetricsSql (src : Option (List VendasRow)) (f : VendasFilters) :
    List VendasAggRow :=
  match src with
  | none => []
  | some rows => [vendasMetricsAgg f rows]

structure VendasMetricsResp where
  total_vendas : ℕ
  total_ingressos : ℕ
  total_receita : ℚ
  ticket_medio : ℚ
deriving DecidableEq, Repr

def zeroVendasMetricsResp : VendasMetricsResp :=
  { total_vendas := 0, total_ingressos := 0, total_receita := 0, ticket_medio := 0 }

/-- Response construction in `vendas_aggregated.get_metrics`:
`ticket_medio = total_receita / total_ingressos if total_ingressos > 0 else 0`. -/
def mkVendasMetricsResp (a : VendasAggRow) : VendasMetricsResp :=
  let ti := pyOr a.total_ingressos 0
  let rev := pyOr a.total_receita 0
  { total_vendas := pyOr (some a.total_vendas) 0
    total_ingressos := ti
    total_receita := rev
    ticket_medio := if ti > 0 then rev / (ti : ℚ) else 0 }

/-- `GET /vendas-aggregated/metrics` without the cache wrapper: the pure
response computation from the data source. -/
def vendasGetMetricsResp (src : Option (List VendasRow)) (f : VendasFilters) :
    VendasMetricsResp :=
  match runVendasMetricsSql src f with
  | [] => zeroVendasMetricsResp
  | row :: _ => mkVendasMetricsResp row

/-!
## Bar upcoming events (`bar_aggregated.get_upcoming_events`)

`SELECT DISTINCT eventName, FORMAT_DATE('%Y-%m-%d', eventDate), eventDate
WHERE eventDate >= CURRENT_DATE() AND isRefunded = FALSE AND eventName IS
NOT NULL ORDER BY eventDate ASC LIMIT 20`, then a Python pass that skips
falsy fields and deduplicates on the `f"{name}_{date}"` key (at day
granularity the formatted and raw dates coincide, and the key is the
(name, date) pair).
-/

instance pairDateRel : DecidableRel (fun (a b : String × Nat) => a.2 ≤ b.2) :=
  fun _ _ => Nat.decLe _ _

/-- The SQL part: filter to future, non-refunded, named rows; distinct
(name, date) tuples in ascending date order; first 20. -/
def barUpcomingSqlRows (today : Nat) (rows : List BarRow) : List (String × Nat) :=
  let kept := rows.filterMap (fun r =>
    match r.eventName, r.eventDate with
    | some n, some d => if !r.isRefunded && today ≤ d then some (n, d) else none
    | _, _ => none)
  let sorted := List.insertionSort (fun a b => a.2 ≤ b.2) kept
  (dedupKeys id sorted []).take 20

/-- The endpoint's Python part: `if event_name and event_date` (a `""`
name is falsy; the formatted date string of a selected row never is), then
the `seen`-set deduplication. -/
def barUpcomingEvents (today : Nat) (rows : List BarRow) : List (String × Nat) :=
  let q := barUpcomingSqlRows today rows
  let events := q.filter (fun p => p.1 ≠ "")
  dedupKeys id events []

/-- Request-processing state of `GET /bar-aggregated/upcoming-events`. -/
structure BarUpState where
  cache : Cache (List (String × Nat))
  source : Option (List BarRow)
  queries : Nat

/-- The recompute path: one data-source hit, then `cache.set` with
`ttl_minutes=30` and the computed list returned. -/
def barUpcomingRecompute (today now : Nat) (s : BarUpState) :
    List (String × Nat) × BarUpState :=
  let events := match s.source with
    | none => []
    | some rows => barUpcomingEvents today rows
  (events,
   { s with queries := s.queries + 1,
            cache := cacheSet s.cache "bar_upcoming_events" events (some 30) now })

/-- One `GET /bar-aggregated/upcoming-events` request: the cache guard is
`if cached:` — Python truthiness — so a cached *empty* list is
indistinguishable from a miss and triggers the recompute path. -/
def barGetUpcoming (today now : Nat) (s : BarUpState) :
    List (String × Nat) × BarUpState :=
  match cacheGet s.cache "bar_upcoming_events" now with
  | (some l, c) =>
    if l.isEmpty then barUpcomingRecompute today now { s with cache := c }
    else (l, { s with cache := c })
  | (none, c) => barUpcomingRecompute today now { s with cache := c }

/-!
## Vendas upcoming events (`vendas_aggregated.get_upcoming_events`)

`GROUP BY evento, cidade_evento, data_evento` over the future rows,
`ORDER BY data_evento ASC LIMIT 50`, then a Python pass skipping falsy
event names.  Note the group key includes the city.
-/

/-- The group key a row contributes to (`None` when the row is filtered
out by `data_evento >= CURRENT_DATE()` / `evento IS NOT NULL`). -/
def vendasUpKeyOf (today : Nat) (r : VendasRow) :
    Option (String × Option String × Nat) :=
  match r.evento, r.data_evento with
  | some e, some d => if today ≤ d then some (e, r.cidade_evento, d) else none
  | _, _ => none

/-- One output entry of the vendas upcoming-events endpoint. -/
structure VendasUpEvent where
  evento : String
  cidade : String
  data_evento : Nat
  total_vendas : ℕ
  total_ingressos : ℕ
  faturamento : ℚ
  receita_liquida : ℚ
deriving DecidableEq, Repr

instance vendasKeyRel : DecidableRel
    (fun (a b : String × Option String × Nat) => a.2.2 ≤ b.2.2) :=
  fun _ _ => Nat.decLe _ _

/-- The SQL part: group keys in ascending date order, first 50, each with
its aggregates (`COUNT(*)`, `SUM(quantidade)`, `SUM(valor_liquido)`,
`SUM(CASE WHEN valor_liquido > 0 THEN valor_liquido ELSE 0 END)`). -/
def vendasUpcomingQuery (today : Nat) (rows : List VendasRow) :
    List VendasUpEvent :=
  let keys := dedupKeys id (rows.filterMap (vendasUpKeyOf today)) []
  let sorted := List.insertionSort
    (fun (a b : String × Option String × Nat) => a.2.2 ≤ b.2.2) keys
  (sorted.take 50).map (fun k =>
    let grp := rows.filter (fun r => vendasUpKeyOf today r = some k)
    { evento := k.1
      cidade := pyOrStr k.2.1 ""
      data_evento := k.2.2
      total_vendas := grp.length
      total_ingressos := (grp.map (·.quantidade)).sum
      faturamento := (grp.map (·.valor_liquido)).sum
      receita_liquida :=
        (grp.map (fun r => if 0 < r.valor_liquido then r.valor_liquido else 0)).sum })

/-- The endpoint's Python part: `if not evento: continue`. -/
def vendasUpcomingEvents (today : Nat) (rows : List VendasRow) :
    List VendasUpEvent :=
  (vendasUpcomingQuery today rows).filter (fun e => e.evento ≠ "")

/-- The response computation of `GET /bar-aggregated/metrics` as a pure
function of the data source (the cache wrapper aside): empty query result
gives the literal zero object. -/
def barGetMetricsResp (src : Option (List BarRow)) (f : BarFilters) :
    BarMetricsResp :=
  match runBarMetricsSql src f with
  | [] => zeroBarMetricsResp
  | row :: _ => mkBarMetricsResp row

/-!
## Concrete fixtures used by the theorems
-/

/-- A bar row holding `12345` stored cents (`count=1`, no discount). -/
def centsBarRow : BarRow :=
  { unitValue := 12345, count := 1, discountValue := none, isRefunded := false,
    productName := some "P", productCategory := none, eventName := some "E",
    eventDate := some 10, transactionDate := some 10, evento_tipo := none }

/-- The same stored values as a CSV row for `GET /bar/stats`. -/
def centsCsvRow : CsvBarRow :=
  { unitValue := some 12345, count := some 1, discountValue := none,
    productName := some "P", eventName := some "E", isRefunded := false }

/-- The §8 three-row `bar_zig` scenario: two non-refunded rows and one
refunded row. -/
def scenarioBarRows : List BarRow :=
  [ { unitValue := 1000, count := 2, discountValue := some 0, isRefunded := false,
      productName := some "P1", productCategory := none, eventName := some "E",
      eventDate := some 10, transactionDate := some 10, evento_tipo := none },
    { unitValue := 500, count := 1, discountValue := some 100, isRefunded := false,
      productName := some "P2", productCategory := none, eventName := some "E",
      eventDate := some 10, transactionDate := some 10, evento_tipo := none },
    { unitValue := 9999, count := 1, discountValue := none, isRefunded := true,
      productName := some "P3", productCategory := none, eventName := some "E",
      eventDate := some 10, transactionDate := some 10, evento_tipo := none } ]

/-- The §8 scenario as CSV rows for `GET /bar/stats`. -/
def scenarioCsvRows : List CsvBarRow :=
  [ { unitValue := some 1000, count := some 2, discountValue := some 0,
      productName := some "P1", eventName := some "E", isRefunded := false },
    { unitValue := some 500, count := some 1, discountValue := some 100,
      productName := some "P2", eventName := some "E", isRefunded := false },
    { unitValue := some 9999, count := some 1, discountValue := none,
      productName := some "P3", eventName := some "E", isRefunded := true } ]

/-- One ticket sale of two tickets for 100 net: a sale where the
transaction count (1) differs from the ticket count (2). -/
def twoTicketSale : VendasRow :=
  { quantidade := 2, valor_liquido := 100, cidade_evento := some "C",
    evento := some "E", base_responsavel := none, ticketeira := none,
    data_evento := some 10, data_venda := some 5 }

/-- A future sale of event `"E"` on day 10 in city `"A"`. -/
def cityARow : VendasRow :=
  { quantidade := 1, valor_liquido := 10, cidade_evento := some "A",
    evento := some "E", base_responsavel := none, ticketeira := none,
    data_evento := some 10, data_venda := some 1 }

/-- The same event and date, sold in city `"B"`. -/
def cityBRow : VendasRow :=
  { quantidade := 1, valor_liquido := 10, cidade_evento := some "B",
    evento := some "E", base_responsavel := none, ticketeira := none,
    data_evento := some 10, data_venda := some 1 }

instance : IsTotal (String × Nat) (fun a b => a.2 ≤ b.2) :=
  ⟨fun a b => Nat.le_total a.2 b.2⟩

instance : IsTrans (String × Nat) (fun a b => a.2 ≤ b.2) :=
  ⟨fun _ _ _ => Nat.le_trans⟩

instance : IsTotal (String × Option String × Nat) (fun a b => a.2.2 ≤ b.2.2) :=
  ⟨fun a b => Nat.le_total a.2.2 b.2.2⟩

instance : IsTrans (String × Option String × Nat) (fun a b => a.2.2 ≤ b.2.2) :=
  ⟨fun _ _ _ => Nat.le_trans⟩

/-!
## Theorems
-/

/-- **C1** — The ticket-type normalizer is a total function into the fixed
`TicketCategory` taxonomy (hence pure and deterministic: equal labels give
equal categories by congruence), with `"MEIA PISTA" ↦ Pista` (the `PISTA`
rule precedes the `MEIA` rule), `"FRONT VIP" ↦ Front Stage`, and both the
empty string and a null label mapping to `Outros`. -/
theorem ticket_normalizer_spec :
    (∀ t : Option String, normalize_ticket_type t ∈ ticketCategories) ∧
    normalize_ticket_type (some "MEIA PISTA") = "Pista" ∧
    normalize_ticket_type (some "FRONT VIP") = "Front Stage" ∧
    normalize_ticket_type (some "") = "Outros" ∧
    normalize_ticket_type none = "Outros" := by
  have key : ∀ (u : List Char) (rules : List ((List Char → Bool) × String)),
      (∀ pc ∈ rules, pc.2 ∈ ticketCategories) →
      firstMatch u rules ∈ ticketCategories := by
    intro u rules h
    induction rules with
    | nil => simp [firstMatch, ticketCategories]
    | cons pc rest ih =>
      obtain ⟨p, c⟩ := pc
      simp only [firstMatch]
      split
      · exact h (p, c) (by simp)
      · exact ih (fun x hx => h x (by simp [hx]))
  refine ⟨?_, by decide, by decide, by decide, by decide⟩
  intro t
  match t with
  | none => simp [normalize_ticket_type, ticketCategories]
  | some s =>
    simp only [normalize_ticket_type]
    split
    · simp [ticketCategories]
    · exact key _ _ (by decide)

/-- Deleting a key really removes it from the association-list map. -/
theorem lookup_filter_out {V : Type} (c : Cache V) (key : String) :
    List.lookup key (c.filter (fun p => !(p.1 == key))) = none := by
  induction c with
  | nil => simp
  | cons p t ih =>
    by_cases h : p.1 = key
    · simpa [h] using ih
    · have hb : (key == p.1) = false :=
        beq_eq_false_iff_ne.mpr (fun hk => h hk.symm)
      simp [h, List.lookup, hb, ih]

/-- **C3** (amended) — `get` on an unknown key is absent; a known entry is
deleted and absent as soon as `now` is *strictly* past `expires_at`; and a
stored value is returned exactly while `now ≤ expires_at` (the source
compares with `datetime.now() > expires_at`, so at `now = expires_at` the
value is still served — the claim's `now >= expires_at` boundary is off by
one instant). -/
theorem cache_get_contract {V : Type} (c : Cache V) (key : String) (now : Nat) :
    (List.lookup key c = none → (cacheGet c key now).1 = none) ∧
    (∀ e : CacheEntry V, List.lookup key c = some e → e.expires_at < now →
      (cacheGet c key now).1 = none ∧
      List.lookup key (cacheGet c key now).2 = none) ∧
    (∀ v : V, (cacheGet c key now).1 = some v →
      ∃ e : CacheEntry V, List.lookup key c = some e ∧ v = e.value ∧
        now ≤ e.expires_at) := by
  refine ⟨fun h => by simp [cacheGet, h], fun e he hlt => ?_, fun v hv => ?_⟩
  · constructor
    · simp [cacheGet, he, hlt]
    · simp only [cacheGet, he]
      rw [if_pos hlt]
      exact lookup_filter_out c key
  · unfold cacheGet at hv
    cases hl : List.lookup key c with
    | none => rw [hl] at hv; simp at hv
    | some e =>
      rw [hl] at hv
      dsimp only at hv
      by_cases hgt : now > e.expires_at
      · rw [if_pos hgt] at hv; simp at hv
      · rw [if_neg hgt] at hv
        simp only [Option.some.injEq] at hv
        exact ⟨e, rfl, hv.symm, Nat.le_of_not_lt hgt⟩

/-- Witness for `cache_get_contract` at a concrete cache: an entry that
expired at 10 is absent (and purged) when read at 11. -/
theorem cache_get_contract_witness :
    (cacheGet ([("k", ⟨(7:Nat), 10, 0⟩)] : Cache Nat) "k" 11).1 = none ∧
    List.lookup "k" (cacheGet ([("k", ⟨(7:Nat), 10, 0⟩)] : Cache Nat) "k" 11).2
      = none :=
  (cache_get_contract [("k", ⟨7, 10, 0⟩)] "k" 11).2.1 ⟨7, 10, 0⟩ (by decide)
    (by decide)

/-- **C3** (counterexample) — at `now = expires_at` the stored value is
still returned, refuting "get returns absent when `now >= expires_at`" /
"a stored value is only ever returned while `now < expires_at`". -/
theorem cache_get_boundary_counterexample :
    (cacheGet ([("k", ⟨(7:Nat), 10, 0⟩)] : Cache Nat) "k" 10).1 = some 7 ∧
    ¬((10:Nat) < 10) := by decide

/-- **C8** — The formatted-numeric-string parser: `"R$ 1.234,56" ↦ 1234.56`,
`"10%" ↦ 10.0`, `"" ↦ 0.0`, `"abc" ↦ 0.0` (failure coerces to zero). -/
theorem convert_to_number_spec :
    convert_to_number "R$ 1.234,56" = 123456 / 100 ∧
    convert_to_number "10%" = 10 ∧
    convert_to_number "" = 0 ∧
    convert_to_number "abc" = 0 := by
  refine ⟨?_, ?_, by decide, ?_⟩ <;>
    simp [convert_to_number, parseFloatQ, trimChars, removeRS, digitsToNat] <;>
    norm_num

/-- **C5** — Aggregation over an empty dataset (`some []`) or an
unavailable source (`none`, where the adapter degrades to an empty row
list without raising) yields the metrics object with every field
explicitly zero, for both the bar and the vendas metrics endpoints; the
grouped sales-by-date query yields the empty sequence. -/
theorem empty_dataset_zero_defaults :
    (∀ f : BarFilters, barGetMetricsResp none f = zeroBarMetricsResp) ∧
    (∀ f : BarFilters, barGetMetricsResp (some []) f = zeroBarMetricsResp) ∧
    (∀ g : VendasFilters, vendasGetMetricsResp none g = zeroVendasMetricsResp) ∧
    (∀ g : VendasFilters, vendasGetMetricsResp (some []) g = zeroVendasMetricsResp) ∧
    (∀ f : BarFilters, barSalesByDate none f = []) ∧
    (∀ f : BarFilters, barSalesByDate (some []) f = []) ∧
    zeroBarMetricsResp = ⟨0, 0, 0, 0⟩ ∧ zeroVendasMetricsResp = ⟨0, 0, 0, 0⟩ := by
  refine ⟨fun f => rfl, fun f => rfl, fun g => rfl, fun g => rfl,
    fun f => rfl, fun f => rfl, rfl, rfl⟩

/-- **C7** (amended) — Both metrics endpoints guard their derived average
against division by zero, yielding `0` for a zero denominator; but the two
denominators differ: the bar average divides by the transaction count,
while the vendas `ticket_medio` divides by the *ticket* count
(`total_ingressos`), not the transaction count `total_vendas`. -/
theorem avg_ticket_guard (f : BarFilters) (rows : List BarRow)
    (g : VendasFilters) (vrows : List VendasRow) :
    ((mkBarMetricsResp (barMetricsAgg f rows)).total_transactions = 0 →
      (mkBarMetricsResp (barMetricsAgg f rows)).avg_ticket = 0) ∧
    ((mkBarMetricsResp (barMetricsAgg f rows)).total_transactions ≠ 0 →
      (mkBarMetricsResp (barMetricsAgg f rows)).avg_ticket *
        (mkBarMetricsResp (barMetricsAgg f rows)).total_transactions =
        (mkBarMetricsResp (barMetricsAgg f rows)).total_revenue) ∧
    ((mkVendasMetricsResp (vendasMetricsAgg g vrows)).total_ingressos = 0 →
      (mkVendasMetricsResp (vendasMetricsAgg g vrows)).ticket_medio = 0) ∧
    ((mkVendasMetricsResp (vendasMetricsAgg g vrows)).total_ingressos ≠ 0 →
      (mkVendasMetricsResp (vendasMetricsAgg g vrows)).ticket_medio *
        (mkVendasMetricsResp (vendasMetricsAgg g vrows)).total_ingressos =
        (mkVendasMetricsResp (vendasMetricsAgg g vrows)).total_receita) := by
  constructor
  · intro h
    simp only [mkBarMetricsResp] at h ⊢
    rw [h]
    simp
  constructor
  · intro h
    simp only [mkBarMetricsResp] at h ⊢
    rw [if_pos (Nat.pos_of_ne_zero h)]
    rw [div_mul_cancel₀]
    exact Nat.cast_ne_zero.mpr h
  constructor
  · intro h
    simp only [mkVendasMetricsResp] at h ⊢
    rw [h]
    simp
  · intro h
    simp only [mkVendasMetricsResp] at h ⊢
    rw [if_pos (Nat.pos_of_ne_zero h)]
    rw [div_mul_cancel₀]
    exact Nat.cast_ne_zero.mpr h

/-- Witness for `avg_ticket_guard`: the zero-transaction bar dataset gives
average ticket 0; the two-ticket sale satisfies the vendas product form. -/
theorem avg_ticket_guard_witness :
    (mkBarMetricsResp (barMetricsAgg emptyBarFilters [])).avg_ticket = 0 ∧
    (mkVendasMetricsResp (vendasMetricsAgg emptyVendasFilters [twoTicketSale])).ticket_medio *
      ((mkVendasMetricsResp (vendasMetricsAgg emptyVendasFilters [twoTicketSale])).total_ingressos : ℚ) =
      (mkVendasMetricsResp (vendasMetricsAgg emptyVendasFilters [twoTicketSale])).total_receita :=
  ⟨(avg_ticket_guard emptyBarFilters [] emptyVendasFilters []).1 rfl,
   (avg_ticket_guard emptyBarFilters [] emptyVendasFilters [twoTicketSale]).2.2.2
     (by decide)⟩

/-- **C7** (counterexample) — On a single sale of two tickets with net
value 100, the vendas endpoint reports `ticket_medio = 50` (revenue over
tickets), while revenue over the transaction count (1) is 100: the average
ticket does not equal total revenue divided by the transaction count. -/
theorem vendas_avg_denominator_counterexample :
    (vendasGetMetricsResp (some [twoTicketSale]) emptyVendasFilters).ticket_medio = 50 ∧
    (vendasGetMetricsResp (some [twoTicketSale]) emptyVendasFilters).total_receita = 100 ∧
    (vendasGetMetricsResp (some [twoTicketSale]) emptyVendasFilters).total_vendas = 1 ∧
    (50 : ℚ) ≠ 100 / ((1 : ℕ) : ℚ) := by
  refine ⟨?_, ?_, by decide, by norm_num⟩ <;>
    simp [vendasGetMetricsResp, runVendasMetricsSql, vendasMetricsAgg,
      mkVendasMetricsResp, vendasRowMatches, emptyVendasFilters, twoTicketSale,
      pyOr, strFilterActive] <;>
    norm_num

/-- `x or 0` on a value that is present is the value itself. -/
theorem pyOr_some_zero {α : Type} [Zero α] [DecidableEq α] (v : α) :
    pyOr (some v) 0 = v := by
  by_cases h : v = 0 <;> simp [pyOr, h]

/-- Distributing a `/ c` that sits inside every summand out of a list sum. -/
theorem sum_map_div {α : Type} (l : List α) (g : α → ℚ) (c : ℚ) :
    (l.map (fun x => g x / c)).sum = (l.map g).sum / c := by
  induction l with
  | nil => simp
  | cons a t ih => simp [ih, add_div]

/-- **C2** (amended) — The bar-aggregated metrics endpoint applies the
`/100` cent conversion exactly once, at the aggregation boundary: the
reported revenue is the sum of the integer-cent net values divided by 100,
and a stored cents value of 12345 yields revenue 123.45.  (The CSV-backed
stats endpoint, by contrast, sums the stored values without the
conversion — see the counterexample.) -/
theorem bar_revenue_scaled_once (f : BarFilters) (rows : List BarRow) :
    (mkBarMetricsResp (barMetricsAgg f rows)).total_revenue =
      ((rows.filter (barRowMatches f)).map
        (fun r => ((r.unitValue * r.count - r.discountValue.getD 0 : ℤ) : ℚ))).sum / 100 ∧
    (barGetMetricsResp (some [centsBarRow]) emptyBarFilters).total_revenue =
      12345 / 100 := by
  constructor
  · simp only [mkBarMetricsResp, barMetricsAgg]
    by_cases hk : (rows.filter (barRowMatches f)).isEmpty
    · rw [List.isEmpty_iff] at hk
      simp [hk, pyOr]
    · simp only [hk, Bool.false_eq_true, if_false, pyOr_some_zero]
      unfold barRowRevenue
      rw [sum_map_div]
  · simp [barGetMetricsResp, runBarMetricsSql, barMetricsAgg, mkBarMetricsResp,
      barRowMatches, emptyBarFilters, strFilterActive, centsBarRow, pyOr,
      barRowRevenue]

/-- **C2** (counterexample) — The CSV-backed stats endpoint reports a
stored value of 12345 as revenue 12345, not 123.45: the `/100` conversion
is not applied on that path. -/
theorem csv_stats_unscaled_counterexample :
    (get_bar_stats [centsCsvRow]).total_revenue = 12345 ∧
    (12345 : ℚ) ≠ 12345 / 100 := by
  constructor
  · simp [get_bar_stats, centsCsvRow, pyOr]
  · norm_num

/-- **C6** (amended) — Every bar-aggregated WHERE clause contains the
refund exclusion, even for the entirely empty FilterSet (under which the
predicate is exactly `NOT isRefunded`); every row the metrics aggregate
counts is non-refunded; and on the §8 scenario the bar-aggregated metrics
endpoint reports `total_transactions = 2`, `total_revenue = 24.00`,
`total_products_sold = 3`.  (The CSV-backed stats endpoint applies no
refund exclusion — see the counterexample.) -/
theorem bar_metrics_refund_exclusion (f : BarFilters) (rows : List BarRow) :
    (∀ r : BarRow, barRowMatches emptyBarFilters r = !r.isRefunded) ∧
    (∀ r ∈ rows.filter (barRowMatches f), r.isRefunded = false) ∧
    mkBarMetricsResp (barMetricsAgg emptyBarFilters scenarioBarRows) =
      { total_transactions := 2, total_revenue := 24, total_products_sold := 3,
        avg_ticket := 12 } := by
  refine ⟨?_, ?_, ?_⟩
  · intro r
    simp [barRowMatches, emptyBarFilters, strFilterActive]
  · intro r hr
    have hcond := (List.mem_filter.mp hr).2
    simp only [barRowMatches, Bool.and_eq_true, Bool.not_eq_true'] at hcond
    exact hcond.1.1.1
  · simp [mkBarMetricsResp, barMetricsAgg, barRowMatches, emptyBarFilters,
      strFilterActive, scenarioBarRows, pyOr, barRowRevenue]
    norm_num

/-- Witness for `bar_metrics_refund_exclusion`: the refunded scenario row
is rejected by the empty-FilterSet predicate, and a filtered scenario list
contains no refunded row. -/
theorem bar_metrics_refund_exclusion_witness :
    barRowMatches emptyBarFilters
      { unitValue := 9999, count := 1, discountValue := none, isRefunded := true,
        productName := some "P3", productCategory := none, eventName := some "E",
        eventDate := some 10, transactionDate := some 10, evento_tipo := none }
      = false := by
  have h := (bar_metrics_refund_exclusion emptyBarFilters scenarioBarRows).1
    { unitValue := 9999, count := 1, discountValue := none, isRefunded := true,
      productName := some "P3", productCategory := none, eventName := some "E",
      eventDate := some 10, transactionDate := some 10, evento_tipo := none }
  simpa using h

/-- **C6** (counterexample) — On the §8 scenario the CSV-backed stats
endpoint counts all three rows (the refunded one included) and sums raw
cents: `total_transactions = 3 ≠ 2` and `total_revenue = 12399 ≠ 24`. -/
theorem csv_stats_includes_refunded_counterexample :
    (get_bar_stats scenarioCsvRows).total_transactions = 3 ∧ (3 : ℕ) ≠ 2 ∧
    (get_bar_stats scenarioCsvRows).total_revenue = 12399 ∧
    (12399 : ℚ) ≠ 24 := by
  refine ⟨by decide, by decide, ?_, by norm_num⟩
  simp [get_bar_stats, scenarioCsvRows, pyOr]
  norm_num

/-- **C4** (amended) — With a reachable data source, the first metrics
call stores its response and a second call within the 15-minute TTL
returns the identical response served from the cache, with no second
data-source hit.  (With an unreachable source the zero response is *not*
cached and the second call re-hits — see the counterexample.) -/
theorem bar_metrics_cache_hit (rows : List BarRow) (f : BarFilters)
    (t1 t2 : Nat) (h : t2 ≤ t1 + 15) :
    (barGetMetrics f t2 (barGetMetrics f t1 ⟨[], some rows, 0⟩).2).1 =
      (barGetMetrics f t1 ⟨[], some rows, 0⟩).1 ∧
    (barGetMetrics f t2 (barGetMetrics f t1 ⟨[], some rows, 0⟩).2).2.queries = 1 ∧
    (barGetMetrics f t1 ⟨[], some rows, 0⟩).2.queries = 1 := by
  have h1 : barGetMetrics f t1 ⟨[], some rows, 0⟩ =
      (mkBarMetricsResp (barMetricsAgg f rows),
       ⟨[("bar_metrics_" ++ bar_build_where_clause f,
          ⟨mkBarMetricsResp (barMetricsAgg f rows), t1 + 15, t1⟩)],
        some rows, 1⟩) := rfl
  rw [h1]
  have h2 : barGetMetrics f t2
      (⟨[("bar_metrics_" ++ bar_build_where_clause f,
          ⟨mkBarMetricsResp (barMetricsAgg f rows), t1 + 15, t1⟩)],
        some rows, 1⟩ : BarMetricsState) =
      (mkBarMetricsResp (barMetricsAgg f rows),
       ⟨[("bar_metrics_" ++ bar_build_where_clause f,
          ⟨mkBarMetricsResp (barMetricsAgg f rows), t1 + 15, t1⟩)],
        some rows, 1⟩) := by
    simp only [barGetMetrics, cacheGet, List.lookup, beq_self_eq_true]
    rw [if_neg (Nat.not_lt.mpr h)]
  rw [h2]
  exact ⟨rfl, rfl, rfl⟩

/-- Witness for `bar_metrics_cache_hit` on a concrete one-row source and
the call times 0 and 5. -/
theorem bar_metrics_cache_hit_witness :
    (barGetMetrics emptyBarFilters 5
        (barGetMetrics emptyBarFilters 0 ⟨[], some [centsBarRow], 0⟩).2).1 =
      (barGetMetrics emptyBarFilters 0 ⟨[], some [centsBarRow], 0⟩).1 ∧
    (barGetMetrics emptyBarFilters 5
        (barGetMetrics emptyBarFilters 0 ⟨[], some [centsBarRow], 0⟩).2).2.queries
      = 1 :=
  ⟨(bar_metrics_cache_hit [centsBarRow] emptyBarFilters 0 5 (by omega)).1,
   (bar_metrics_cache_hit [centsBarRow] emptyBarFilters 0 5 (by omega)).2.1⟩

/-- **C4** (counterexample) — With an unreachable source both calls hit
the data source: the zero-response early return does not populate the
cache, so the second call within the TTL window re-hits (query counter 2,
where a cache hit would have left it at 1). -/
theorem bar_metrics_rehit_counterexample :
    (barGetMetrics emptyBarFilters 0
      (⟨[], none, 0⟩ : BarMetricsState)).2.queries = 1 ∧
    (barGetMetrics emptyBarFilters 1
      (barGetMetrics emptyBarFilters 0
        (⟨[], none, 0⟩ : BarMetricsState)).2).2.queries = 2 ∧
    (2 : ℕ) ≠ 1 := ⟨rfl, rfl, by decide⟩

/-- **C10** — The upcoming-events endpoint guards its cache lookup with
Python truthiness (`if cached:`), so a stored empty list is
indistinguishable from a miss: when no future events exist, a second call
within the 30-minute TTL re-hits the data source (query counter 2) and
re-stores the empty value under a fresh entry created at the second call's
time, instead of returning the cached entry. -/
theorem falsy_cache_value_rehits (src : List BarRow) (today t1 t2 : Nat)
    (hempty : barUpcomingEvents today src = [])
    (h : t2 ≤ t1 + 30) :
    (barGetUpcoming today t1 ⟨[], some src, 0⟩).1 = [] ∧
    (barGetUpcoming today t1 ⟨[], some src, 0⟩).2.queries = 1 ∧
    (barGetUpcoming today t2
      (barGetUpcoming today t1 ⟨[], some src, 0⟩).2).2.queries = 2 ∧
    List.lookup "bar_upcoming_events"
      (barGetUpcoming today t2
        (barGetUpcoming today t1 ⟨[], some src, 0⟩).2).2.cache
      = some ⟨[], t2 + 30, t2⟩ := by
  have h1 : barGetUpcoming today t1 ⟨[], some src, 0⟩ =
      ([], ⟨[("bar_upcoming_events", ⟨[], t1 + 30, t1⟩)], some src, 1⟩) := by
    simp [barGetUpcoming, barUpcomingRecompute, cacheGet, cacheSet, hempty, pyOr]
  rw [h1]
  have h2 : barGetUpcoming today t2
      (⟨[("bar_upcoming_events", ⟨[], t1 + 30, t1⟩)], some src, 1⟩ : BarUpState) =
      ([], ⟨[("bar_upcoming_events", ⟨[], t2 + 30, t2⟩)], some src, 2⟩) := by
    simp only [barGetUpcoming, cacheGet, List.lookup, beq_self_eq_true]
    rw [if_neg (Nat.not_lt.mpr h)]
    simp [barUpcomingRecompute, cacheSet, hempty, pyOr]
  rw [h2]
  refine ⟨rfl, rfl, rfl, ?_⟩
  simp [List.lookup]

/-- Witness for `falsy_cache_value_rehits`: the empty source at times 0
and 5. -/
theorem falsy_cache_value_rehits_witness :
    (barGetUpcoming 0 5 (barGetUpcoming 0 0 ⟨[], some [], 0⟩).2).2.queries = 2 ∧
    List.lookup "bar_upcoming_events"
      (barGetUpcoming 0 5 (barGetUpcoming 0 0 ⟨[], some [], 0⟩).2).2.cache
      = some ⟨[], 35, 5⟩ :=
  ⟨(falsy_cache_value_rehits [] 0 0 5 rfl (by omega)).2.2.1,
   (falsy_cache_value_rehits [] 0 0 5 rfl (by omega)).2.2.2⟩

/-- The keyed first-occurrence deduplication yields a sublist. -/
theorem dedupKeys_sublist {α β : Type} [DecidableEq β] (key : α → β) :
    ∀ (l : List α) (seen : List β), List.Sublist (dedupKeys key l seen) l
  | [], _ => List.Sublist.refl _
  | x :: xs, seen => by
    simp only [dedupKeys]
    split
    · exact (dedupKeys_sublist key xs seen).cons x
    · exact (dedupKeys_sublist key xs (key x :: seen)).cons₂ x

/-- Nothing survives the deduplication whose key was already seen. -/
theorem dedupKeys_fresh {α β : Type} [DecidableEq β] (key : α → β) :
    ∀ (l : List α) (seen : List β), ∀ a ∈ dedupKeys key l seen, key a ∉ seen
  | [], _ => by simp [dedupKeys]
  | x :: xs, seen => by
    simp only [dedupKeys]
    split
    · exact dedupKeys_fresh key xs seen
    · intro a ha
      rcases List.mem_cons.mp ha with rfl | ha'
      · assumption
      · have h2 := dedupKeys_fresh key xs (key x :: seen) a ha'
        exact fun hmem => h2 (List.mem_cons_of_mem _ hmem)

/-- The deduplicated list has pairwise-distinct keys. -/
theorem dedupKeys_pairwise {α β : Type} [DecidableEq β] (key : α → β) :
    ∀ (l : List α) (seen : List β),
      (dedupKeys key l seen).Pairwise (fun a b => key a ≠ key b)
  | [], _ => by simp [dedupKeys]
  | x :: xs, seen => by
    simp only [dedupKeys]
    split
    · exact dedupKeys_pairwise key xs seen
    · refine List.Pairwise.cons ?_ (dedupKeys_pairwise key xs (key x :: seen))
      intro b hb he
      exact dedupKeys_fresh key xs (key x :: seen) b hb
        (he ▸ List.mem_cons_self (key x) seen)

/-- Every entry the bar upcoming-events endpoint returns has an event date
on or after the current date. -/
theorem barUpcomingEvents_future (today : Nat) (rows : List BarRow) :
    ∀ e ∈ barUpcomingEvents today rows, today ≤ e.2 := by
  intro e he
  simp only [barUpcomingEvents] at he
  have h1 := (dedupKeys_sublist id _ []).subset he
  have h2 := List.mem_of_mem_filter h1
  simp only [barUpcomingSqlRows] at h2
  have h3 := List.take_subset 20 _ h2
  have h4 := (dedupKeys_sublist id _ []).subset h3
  have h5 := (List.perm_insertionSort (fun (a b : String × Nat) => a.2 ≤ b.2)
    _).subset h4
  rw [List.mem_filterMap] at h5
  obtain ⟨r, -, hr⟩ := h5
  rcases hn : r.eventName with _ | n
  · rw [hn] at hr; simp at hr
  rcases hd : r.eventDate with _ | d
  · rw [hn, hd] at hr; simp at hr
  rw [hn, hd] at hr
  dsimp only at hr
  split at hr
  · rename_i hcond
    rw [Option.some.injEq] at hr
    subst hr
    exact of_decide_eq_true ((Bool.and_eq_true _ _).mp hcond).2
  · exact absurd hr (by simp)

/-- The bar upcoming-events output is ascending by event date. -/
theorem barUpcomingEvents_sorted (today : Nat) (rows : List BarRow) :
    (barUpcomingEvents today rows).Pairwise (fun a b => a.2 ≤ b.2) := by
  have hs : (barUpcomingSqlRows today rows).Pairwise (fun a b => a.2 ≤ b.2) := by
    simp only [barUpcomingSqlRows]
    exact ((List.sorted_insertionSort _ _).sublist
      (dedupKeys_sublist id _ [])).sublist (List.take_sublist _ _)
  simp only [barUpcomingEvents]
  exact (hs.sublist (List.filter_sublist _)).sublist (dedupKeys_sublist id _ [])

/-- The bar upcoming-events output has pairwise-distinct
(event name, event date) entries. -/
theorem barUpcomingEvents_distinct (today : Nat) (rows : List BarRow) :
    (barUpcomingEvents today rows).Pairwise (fun a b => a ≠ b) := by
  simp only [barUpcomingEvents]
  exact dedupKeys_pairwise id _ []

/-- The bar upcoming-events output is capped at 20 entries. -/
theorem barUpcomingEvents_length (today : Nat) (rows : List BarRow) :
    (barUpcomingEvents today rows).length ≤ 20 := by
  have h1 := (dedupKeys_sublist id
    ((barUpcomingSqlRows today rows).filter (fun p => p.1 ≠ "")) []).length_le
  have h2 := (@List.filter_sublist _ (fun p => decide (p.1 ≠ ""))
    (barUpcomingSqlRows today rows)).length_le
  have h3 : (barUpcomingSqlRows today rows).length ≤ 20 := by
    simp only [barUpcomingSqlRows]
    exact List.length_take_le _ _
  simp only [barUpcomingEvents]
  omega

/-- Every entry the vendas upcoming-events endpoint returns has an event
date on or after the current date. -/
theorem vendasUpcomingEvents_future (today : Nat) (rows : List VendasRow) :
    ∀ e ∈ vendasUpcomingEvents today rows, today ≤ e.data_evento := by
  intro e he
  simp only [vendasUpcomingEvents] at he
  have h1 := List.mem_of_mem_filter he
  simp only [vendasUpcomingQuery] at h1
  rw [List.mem_map] at h1
  obtain ⟨k, hk, hke⟩ := h1
  have h2 := List.take_subset 50 _ hk
  have h3 := (List.perm_insertionSort
    (fun (a b : String × Option String × Nat) => a.2.2 ≤ b.2.2) _).subset h2
  have h4 := (dedupKeys_sublist id _ []).subset h3
  rw [List.mem_filterMap] at h4
  obtain ⟨r, -, hr⟩ := h4
  have hd : today ≤ k.2.2 := by
    unfold vendasUpKeyOf at hr
    rcases hv : r.evento with _ | ev
    · rw [hv] at hr; simp at hr
    rcases hdd : r.data_evento with _ | d
    · rw [hv, hdd] at hr; simp at hr
    rw [hv, hdd] at hr
    dsimp only at hr
    split at hr
    · rename_i hc
      rw [Option.some.injEq] at hr
      subst hr
      exact hc
    · exact absurd hr (by simp)
  cases hke
  exact hd

/-- The vendas upcoming-events output is ascending by event date. -/
theorem vendasUpcomingEvents_sorted (today : Nat) (rows : List VendasRow) :
    (vendasUpcomingEvents today rows).Pairwise
      (fun a b => a.data_evento ≤ b.data_evento) := by
  simp only [vendasUpcomingEvents, vendasUpcomingQuery]
  have p0 := List.sorted_insertionSort
    (fun (a b : String × Option String × Nat) => a.2.2 ≤ b.2.2)
    (dedupKeys id (rows.filterMap (vendasUpKeyOf today)) [])
  have p1 := p0.sublist (List.take_sublist 50 _)
  exact List.Pairwise.sublist (List.filter_sublist _) (p1.map _ (fun a b h => h))

/-- The vendas upcoming-events output is capped at 50 entries. -/
theorem vendasUpcomingEvents_length (today : Nat) (rows : List VendasRow) :
    (vendasUpcomingEvents today rows).length ≤ 50 := by
  simp only [vendasUpcomingEvents, vendasUpcomingQuery]
  refine le_trans (List.filter_sublist _).length_le ?_
  rw [List.length_map]
  exact List.length_take_le _ _

/-- **C9** (amended) — For both datasets, the upcoming-events result
contains only events dated on or after the current date, is ascending by
date, and is capped (20 for bar, 50 for vendas).  Deduplication differs by
dataset: the bar output has pairwise-distinct (event name, event date)
entries, while the vendas query groups by (event name, **city**, event
date) — two source rows sharing the full triple collapse to a single
entry (shown concretely), but rows sharing only (event name, event date)
and differing in city do not (see the counterexample). -/
theorem upcoming_events_spec (today : Nat) (rows : List BarRow)
    (vrows : List VendasRow) :
    (∀ e ∈ barUpcomingEvents today rows, today ≤ e.2) ∧
    (barUpcomingEvents today rows).Pairwise (fun a b => a.2 ≤ b.2) ∧
    (barUpcomingEvents today rows).Pairwise (fun a b => a ≠ b) ∧
    (barUpcomingEvents today rows).length ≤ 20 ∧
    (∀ e ∈ vendasUpcomingEvents today vrows, today ≤ e.data_evento) ∧
    (vendasUpcomingEvents today vrows).Pairwise
      (fun a b => a.data_evento ≤ b.data_evento) ∧
    (vendasUpcomingEvents today vrows).length ≤ 50 ∧
    vendasUpcomingEvents 0 [twoTicketSale, twoTicketSale] =
      [{ evento := "E", cidade := "C", data_evento := 10, total_vendas := 2,
         total_ingressos := 4, faturamento := 200, receita_liquida := 200 }] :=
  ⟨barUpcomingEvents_future today rows, barUpcomingEvents_sorted today rows,
   barUpcomingEvents_distinct today rows, barUpcomingEvents_length today rows,
   vendasUpcomingEvents_future today vrows,
   vendasUpcomingEvents_sorted today vrows,
   vendasUpcomingEvents_length today vrows, by
     simp [vendasUpcomingEvents, vendasUpcomingQuery, vendasUpKeyOf, dedupKeys,
       twoTicketSale, List.insertionSort, List.orderedInsert, pyOrStr]
     norm_num⟩

/-- **C9** (counterexample) — Two vendas source rows sharing the identical
(event name, event date) pair but sold in different cities yield *two*
output entries (the group key includes the city), refuting "two source
rows sharing an identical (event name, event date) pair yield one output
entry". -/
theorem vendas_upcoming_city_split_counterexample :
    (vendasUpcomingEvents 0 [cityARow, cityBRow]).map
        (fun e => (e.evento, e.data_evento)) = [("E", 10), ("E", 10)] ∧
    (vendasUpcomingEvents 0 [cityARow, cityBRow]).length = 2 ∧
    (2 : ℕ) ≠ 1 := by
  refine ⟨?_, ?_, by decide⟩ <;>
    simp [vendasUpcomingEvents, vendasUpcomingQuery, vendasUpKeyOf, dedupKeys,
      cityARow, cityBRow, List.insertionSort, List.orderedInsert, pyOrStr]

/-- Witness for `upcoming_events_spec`: the single future bar event
`("E", 10)` is in the output for day 0, and its date is on or after 0. -/
theorem upcoming_events_spec_witness :
    (0 : Nat) ≤ (("E", 10) : String × Nat).2 ∧
    (barUpcomingEvents 0 [centsBarRow]).length ≤ 20 :=
  ⟨(upcoming_events_spec 0 [centsBarRow] []).1 ("E", 10) (by decide),
   (upcoming_events_spec 0 [centsBarRow] []).2.2.2.1⟩
